import Mathlib

/-!
Verification of the data-access middleware of `alx-backend-python`
(decorators in `python-decorators-0x01`, context managers and the
concurrent fetch in `python-context-async-perations-0x02`) against its
natural-language specification.

Conventions of the shallow embedding:
* A Python call that either returns a value or raises an exception is
  modelled as `Except String α` (the `String` is the exception payload).
* Side effects on the connection (commit, rollback, close, sleep,
  invoking the wrapped operation) are recorded in an explicit event
  trace, returned next to the value.
* Wrapped operations are pure values or functions handed to the
  wrapper, exactly as the decorators receive `func`.
-/

namespace AlxMiddleware

/-- Events a transaction wrapper emits on the connection. -/
inductive TxEvent where
  | commit
  | rollback
deriving DecidableEq, Repr

/-- Number of occurrences of a transaction event in a trace. -/
def txCount (e : TxEvent) (tr : List TxEvent) : Nat :=
  (tr.filter (fun x => x = e)).length

/--
Embedding of `transactional` (src/python-decorators-0x01/2-transactional.py,
lines 18–33).  The wrapped call `func(conn, *args, **kwargs)` is the value
`op : Except String α`.  The Python body is

    try:
        result = func(conn, *args, **kwargs)
        conn.commit()
        return result
    except Exception as e:
        conn.rollback()
        print(f"Transaction failed: {e}")
        raise

so a normal return commits and returns the result, and an exception rolls
back and re-raises the same exception.  The second component is the trace
of commit/rollback events on the connection; the `conn.commit()` and
`conn.rollback()` primitives themselves are modelled as infallible
events, matching the spec's abstraction of the store.
-/
def transactional {α : Type} (op : Except String α) :
    Except String α × List TxEvent :=
  match op with
  | .ok result => (.ok result, [TxEvent.commit])
  | .error e => (.error e, [TxEvent.rollback])

/--
Embedding of `ExecuteQuery.__exit__`
(src/python-context-async-perations-0x02/1-execute.py, lines 56–71) on the
normal path where a cursor exists: `exc` is `exc_type` (`none` when the
`with` body completed without an exception).  The code commits when
`exc_type is None`, rolls back otherwise, and returns `False` so any
exception propagates.  Result: (trace of commit/rollback, returned Bool).
-/
def executeQuery_exit (exc : Option String) : List TxEvent × Bool :=
  match exc with
  | none => ([TxEvent.commit], false)
  | some _ => ([TxEvent.rollback], false)

/-! ## Query cache (src/python-decorators-0x01/4-cache_query.py) -/

/-- A row of a result set: a sequence of column values. -/
abbrev Row := List Int

/-- A `ResultSet`: an ordered sequence of rows. -/
abbrev ResultSet := List Row

/-- The process-wide `query_cache` dictionary: statement text ↦ result set.
The head of the list is the most recent binding. -/
abbrev Cache := List (String × ResultSet)

/-- Dictionary lookup `query_cache[query]` / `query in query_cache`. -/
def cacheLookup (q : String) : Cache → Option ResultSet
  | [] => none
  | (k, v) :: rest => if k = q then some v else cacheLookup q rest

/--
Embedding of the `cache_query` wrapper
(src/python-decorators-0x01/4-cache_query.py, lines 22–37):

    def wrapper(conn, query, *args, **kwargs):
        if query in query_cache:
            return query_cache[query]
        result = func(conn, query, *args, **kwargs)
        query_cache[query] = result
        return result

`execute` is the underlying `func` already applied to the connection; it
receives the statement text and the extra bind parameters (`*args`), and
may raise.  The result is (call outcome, cache after the call, number of
invocations of the underlying `execute` during this call).  On a hit the
cached result is returned with zero executions; on a miss the underlying
call runs once, and only a successful result is stored (an exception
propagates before the assignment `query_cache[query] = result` runs).
-/
def cache_query (execute : String → List Int → Except String ResultSet)
    (cache : Cache) (query : String) (params : List Int) :
    Except String ResultSet × Cache × Nat :=
  match cacheLookup query cache with
  | some r => (.ok r, cache, 0)
  | none =>
    match execute query params with
    | .ok result => (.ok result, (query, result) :: cache, 1)
    | .error e => (.error e, cache, 1)

/-! ## Retry policy (src/python-decorators-0x01/3-retry_on_failure.py) -/

/-- Events the retry wrapper produces: the `attempt`-indexed invocation of
the wrapped function (0-based, as in `for attempt in range(retries)`), and
a blocking `time.sleep(delay)` wait. -/
inductive REvent where
  | invoke (attempt : Nat)
  | sleep (delay : Nat)
deriving DecidableEq, Repr

/-- Number of invocations of the wrapped operation recorded in a trace. -/
def invokeCount (tr : List REvent) : Nat :=
  (tr.filter (fun e => match e with | .invoke _ => true | .sleep _ => false)).length

/-- Number of `time.sleep` waits recorded in a trace. -/
def sleepCount (tr : List REvent) : Nat :=
  (tr.filter (fun e => match e with | .invoke _ => false | .sleep _ => true)).length

/--
Embedding of the loop body of `retry_on_failure`
(src/python-decorators-0x01/3-retry_on_failure.py, lines 19–35):

    for attempt in range(retries):
        try:
            return func(*args, **kwargs)
        except Exception as e:
            if attempt < retries - 1:
                print(...); time.sleep(delay)
            else:
                print(...); raise

`op attempt` is the outcome of the invocation made at loop index
`attempt`; `remaining` is the number of loop iterations still to run,
i.e. `retries - attempt` (so the Python guard `attempt < retries - 1`,
equivalently `retries - attempt > 1`, is `remaining ≠ 1`, here matched as
`remaining = r + 1` with `r ≠ 0`).  When the loop completes without a
`return` or `raise` (only possible when `retries = 0`), the Python
function falls off the end and returns `None`, modelled as `.ok none`;
a returned value `v` is `.ok (some v)`.
-/
def retryGo {α : Type} (op : Nat → Except String α) (delay : Nat) :
    Nat → Nat → List REvent × Except String (Option α)
  | _, 0 => ([], .ok none)
  | attempt, remaining + 1 =>
    match op attempt with
    | .ok v => ([REvent.invoke attempt], .ok (some v))
    | .error e =>
      if remaining = 0 then
        ([REvent.invoke attempt], .error e)
      else
        let rest := retryGo op delay (attempt + 1) remaining
        (REvent.invoke attempt :: REvent.sleep delay :: rest.1, rest.2)

/-- The wrapper produced by `retry_on_failure(retries=..., delay=...)`
applied to `func`: run the loop from attempt 0 with `retries` iterations
remaining.  Returns the event trace and the call's outcome. -/
def retry_on_failure {α : Type} (op : Nat → Except String α)
    (retries delay : Nat) : List REvent × Except String (Option α) :=
  retryGo op delay 0 retries

/-! ## Connection scope (src/python-decorators-0x01/2-transactional.py,
lines 4–16, and src/python-context-async-perations-0x02/0-databaseconnection.py) -/

/-- Events of a connection scope: opening the store session, invoking the
wrapped operation with it, and closing the session. -/
inductive CEvent where
  | acquire
  | invokeOp
  | close
deriving DecidableEq, Repr

/-- Number of occurrences of a connection event in a trace. -/
def cCount (e : CEvent) (tr : List CEvent) : Nat :=
  (tr.filter (fun x => x = e)).length

/--
Embedding of the `with_db_connection` wrapper
(src/python-decorators-0x01/2-transactional.py, lines 4–16):

    conn = sqlite3.connect('users.db')   # may raise: propagates, func never runs
    try:
        return func(conn, *args, **kwargs)
    finally:
        conn.close()

`openConn` is the outcome of `sqlite3.connect`, `closeConn` the outcome of
`conn.close()`, `op` the wrapped call on the connection.  Python `finally`
semantics: the close runs on every exit path of the `try`, and if the
close itself raises, that exception supersedes the `try` block's pending
return value or in-flight exception.  Result: (call outcome, trace).
-/
def with_db_connection {α : Type} (openConn : Except String Nat)
    (closeConn : Nat → Except String Unit) (op : Nat → Except String α) :
    Except String α × List CEvent :=
  match openConn with
  | .error e => (.error e, [])
  | .ok conn =>
    let body := op conn
    match closeConn conn with
    | .ok _ => (body, [CEvent.acquire, CEvent.invokeOp, CEvent.close])
    | .error ce => (.error ce, [CEvent.acquire, CEvent.invokeOp, CEvent.close])

/--
Embedding of the `DatabaseConnection` context manager
(src/python-context-async-perations-0x02/0-databaseconnection.py,
lines 11–24) driven through a `with` statement: `__enter__` opens the
connection and cursor (an open failure propagates and the body never
runs, with nothing to close since `__exit__` is not called when
`__enter__` raises); the body runs on the cursor; `__exit__` closes the
cursor and connection and returns `False`, so a body exception
propagates.  The close calls on cursor and connection are modelled as the
single release of the scope's session. -/
def withDatabaseConnection {α : Type} (openConn : Except String Nat)
    (body : Nat → Except String α) : Except String α × List CEvent :=
  match openConn with
  | .error e => (.error e, [])
  | .ok conn => (body conn, [CEvent.acquire, CEvent.invokeOp, CEvent.close])

/-! ## Concurrent fetch (src/python-context-async-perations-0x02/3-concurrent.py) -/

/-- A row of the `users` table, as selected by the two fetch coroutines. -/
structure UserRow where
  id : Nat
  name : String
  age : Nat
deriving DecidableEq, Repr

/-- `async_fetch_users`: `SELECT * FROM users` — every row of the store. -/
def async_fetch_users (db : List UserRow) : List UserRow := db

/-- `async_fetch_older_users`: `SELECT * FROM users WHERE age > ?` with
parameter `(40,)` — the rows whose age exceeds 40, in store order. -/
def async_fetch_older_users (db : List UserRow) : List UserRow :=
  db.filter (fun u => 40 < u.age)

/--
Cooperative scheduler for `asyncio.gather(t1, t2)` over two independent
read-only tasks.  Each task is abstracted as its final result (`a`, `b` —
independent of interleaving because each fetch opens its own connection
and only reads) together with a count of pending suspension steps
(`n1`, `n2` — awaited I/O completions).  `sched` says which task the
event loop resumes next (`true` = first task; resuming a finished task
lets the other proceed).  `gather` returns `some` pair only once both
tasks have completed, and always in argument order — first task's result
first — whatever the completion interleaving; `none` means the schedule
ended before both tasks finished (the gather is still pending).
-/
def gather {α β : Type} (a : α) (b : β) :
    List Bool → Nat → Nat → Option (α × β)
  | _, 0, 0 => some (a, b)
  | [], _, _ => none
  | true :: rest, 0, n2 + 1 => gather a b rest 0 n2
  | true :: rest, n1 + 1, n2 => gather a b rest n1 n2
  | false :: rest, n1, n2 + 1 => gather a b rest n1 n2
  | false :: rest, n1 + 1, 0 => gather a b rest n1 0

/-- `fetch_concurrently`
(src/python-context-async-perations-0x02/3-concurrent.py, lines 16–21):
`await asyncio.gather(async_fetch_users(), async_fetch_older_users())`
run under schedule `sched`, with `n1`, `n2` pending steps in the two
coroutines. -/
def fetch_concurrently (db : List UserRow) (sched : List Bool)
    (n1 n2 : Nat) : Option (List UserRow × List UserRow) :=
  gather (async_fetch_users db) (async_fetch_older_users db) sched n1 n2

/-! ## Theorems -/

/-- C1: for every operation wrapped by the transaction wrapper, a normal
return commits (no rollback) and returns the operation's value; an
exception rolls back (no commit) and re-raises the same exception;
exactly one of commit/rollback occurs per invocation.  The same holds of
`ExecuteQuery.__exit__`: commit exactly when no exception is in flight,
rollback otherwise, never both, and `False` is returned so the exception
propagates unchanged. -/
theorem transactional_commit_xor_rollback {α : Type} (op : Except String α) :
    (∀ r : α, op = .ok r →
      (transactional op).1 = .ok r ∧ (transactional op).2 = [TxEvent.commit]) ∧
    (∀ e : String, op = .error e →
      (transactional op).1 = .error e ∧ (transactional op).2 = [TxEvent.rollback]) ∧
    txCount TxEvent.commit (transactional op).2 +
      txCount TxEvent.rollback (transactional op).2 = 1 ∧
    (∀ exc : Option String,
      txCount TxEvent.commit (executeQuery_exit exc).1 +
        txCount TxEvent.rollback (executeQuery_exit exc).1 = 1 ∧
      (executeQuery_exit exc).2 = false ∧
      (exc = none → (executeQuery_exit exc).1 = [TxEvent.commit]) ∧
      (∀ e : String, exc = some e → (executeQuery_exit exc).1 = [TxEvent.rollback])) := by
  refine ⟨?_, ?_, ?_, ?_⟩
  · intro r h; subst h; simp [transactional, txCount]
  · intro e h; subst h; simp [transactional, txCount]
  · cases op <;> simp [transactional, txCount]
  · intro exc; cases exc <;> simp [executeQuery_exit, txCount]

theorem transactional_commit_xor_rollback_witness :
    (transactional (Except.ok (42 : Nat))).1 = .ok 42 ∧
    (transactional (Except.error "bad" : Except String Nat)).2 = [TxEvent.rollback] :=
  ⟨((transactional_commit_xor_rollback (Except.ok 42)).1 42 rfl).1,
   ((transactional_commit_xor_rollback (Except.error "bad")).2.1 "bad" rfl).2⟩

/-- C4: when acquisition succeeds, the connection scope invokes the
operation once and releases the connection exactly once before control
returns, whatever the operation's outcome and even when the release
itself errors; when acquisition fails, its error is surfaced as the
call's outcome and the operation is never invoked.  Both the
`with_db_connection` decorator and the `DatabaseConnection` context
manager satisfy this. -/
theorem connection_scope_releases_once {α : Type} (openConn : Except String Nat)
    (closeConn : Nat → Except String Unit) (op : Nat → Except String α) :
    (∀ c : Nat, openConn = .ok c →
      cCount CEvent.close (with_db_connection openConn closeConn op).2 = 1 ∧
      cCount CEvent.invokeOp (with_db_connection openConn closeConn op).2 = 1 ∧
      cCount CEvent.close (withDatabaseConnection openConn op).2 = 1 ∧
      cCount CEvent.invokeOp (withDatabaseConnection openConn op).2 = 1) ∧
    (∀ e : String, openConn = .error e →
      (with_db_connection openConn closeConn op).1 = .error e ∧
      cCount CEvent.invokeOp (with_db_connection openConn closeConn op).2 = 0 ∧
      cCount CEvent.close (with_db_connection openConn closeConn op).2 = 0 ∧
      (withDatabaseConnection openConn op).1 = .error e ∧
      cCount CEvent.invokeOp (withDatabaseConnection openConn op).2 = 0) := by
  constructor
  · intro c h; subst h
    cases hc : closeConn c <;>
      simp [with_db_connection, withDatabaseConnection, cCount, hc]
  · intro e h; subst h
    simp [with_db_connection, withDatabaseConnection, cCount]

theorem connection_scope_releases_once_witness :
    cCount CEvent.close
      (with_db_connection (Except.ok 7) (fun _ => Except.ok ())
        (fun _ => (Except.error "boom" : Except String Nat))).2 = 1 ∧
    (with_db_connection (Except.error "no such file" : Except String Nat)
      (fun _ => Except.ok ()) (fun _ => (Except.ok 5 : Except String Nat))).1 =
      .error "no such file" :=
  ⟨((connection_scope_releases_once (Except.ok 7) (fun _ => Except.ok ())
      (fun _ => (Except.error "boom" : Except String Nat))).1 7 rfl).1,
   ((connection_scope_releases_once (Except.error "no such file")
      (fun _ => Except.ok ()) (fun _ => (Except.ok 5 : Except String Nat))).2
      "no such file" rfl).1⟩

/-- C6 counterexample: with `with_db_connection`, when `conn.close()` in
the `finally` block fails, the close error — not the wrapped operation's
successful result — becomes the call's outcome: here the operation
returns `42` but the caller sees the close error, so the claim that a
successful operation's result is still returned is false. -/
theorem close_error_masks_counterexample :
    (with_db_connection (Except.ok 0) (fun _ => Except.error "close failed")
        (fun _ => (Except.ok 42 : Except String Nat))).1 = .error "close failed" ∧
    (with_db_connection (Except.ok 0) (fun _ => Except.error "close failed")
        (fun _ => (Except.ok 42 : Except String Nat))).1 ≠ .ok 42 := by
  constructor <;> simp [with_db_connection]

/-- C6 amended: if releasing the connection at scope exit fails, the
close error propagates to the caller and replaces the wrapped
operation's original outcome (`try`/`finally` semantics: an exception
raised in the `finally` block supersedes the pending return value or
in-flight exception), and no separate reporting occurs. -/
theorem close_error_supersedes_outcome {α : Type} (closeConn : Nat → Except String Unit)
    (op : Nat → Except String α) (c : Nat) (ce : String)
    (hclose : ∀ n : Nat, closeConn n = .error ce) :
    (with_db_connection (Except.ok c) closeConn op).1 = .error ce := by
  simp [with_db_connection, hclose]

theorem close_error_supersedes_outcome_witness :
    (with_db_connection (Except.ok 3) (fun _ => Except.error "close failed")
        (fun _ => (Except.error "op failed" : Except String Nat))).1 =
      .error "close failed" :=
  close_error_supersedes_outcome (fun _ => Except.error "close failed")
    (fun _ => (Except.error "op failed" : Except String Nat)) 3 "close failed"
    (fun _ => rfl)

/-- C10: with `retries = 0` the retry wrapper's `for attempt in
range(0)` loop body never runs, so the wrapper returns Python's implicit
`None` — no invocation of the operation, no sleep, no exception. -/
theorem retry_zero_returns_none {α : Type} (op : Nat → Except String α) (delay : Nat) :
    (retry_on_failure op 0 delay).2 = .ok none ∧
    (retry_on_failure op 0 delay).1 = [] := by
  simp [retry_on_failure, retryGo]

theorem invokeCount_cons_invoke (a : Nat) (tr : List REvent) :
    invokeCount (REvent.invoke a :: tr) = invokeCount tr + 1 := by
  simp [invokeCount, List.filter]

theorem invokeCount_cons_sleep (d : Nat) (tr : List REvent) :
    invokeCount (REvent.sleep d :: tr) = invokeCount tr := by
  simp [invokeCount, List.filter]

theorem sleepCount_cons_invoke (a : Nat) (tr : List REvent) :
    sleepCount (REvent.invoke a :: tr) = sleepCount tr := by
  simp [sleepCount, List.filter]

theorem sleepCount_cons_sleep (d : Nat) (tr : List REvent) :
    sleepCount (REvent.sleep d :: tr) = sleepCount tr + 1 := by
  simp [sleepCount, List.filter]

/-- Helper: when every invocation fails, a run of the retry loop with
`remaining > 0` iterations left makes exactly `remaining` further
invocations, sleeps `remaining - 1` times, and propagates the exception
of the last invocation made (loop index `attempt + remaining - 1`). -/
theorem retryGo_allfail {α : Type} (op : Nat → Except String α)
    (errs : Nat → String) (hfail : ∀ n : Nat, op n = .error (errs n)) (delay : Nat) :
    ∀ remaining attempt : Nat, remaining ≠ 0 →
      invokeCount (retryGo op delay attempt remaining).1 = remaining ∧
      sleepCount (retryGo op delay attempt remaining).1 = remaining - 1 ∧
      (retryGo op delay attempt remaining).2 = .error (errs (attempt + remaining - 1)) := by
  intro remaining
  induction remaining with
  | zero => intro attempt h; exact absurd rfl h
  | succ r ih =>
    intro attempt _
    by_cases hr : r = 0
    · subst hr
      simp [retryGo, hfail, invokeCount, sleepCount, List.filter]
    · obtain ⟨h1, h2, h3⟩ := ih (attempt + 1) hr
      have key : retryGo op delay attempt (r + 1) =
          (REvent.invoke attempt :: REvent.sleep delay ::
            (retryGo op delay (attempt + 1) r).1,
           (retryGo op delay (attempt + 1) r).2) := by
        simp [retryGo, hfail, hr]
      rw [key]
      refine ⟨?_, ?_, ?_⟩
      · simp only [invokeCount_cons_invoke, invokeCount_cons_sleep, h1]
      · simp only [sleepCount_cons_invoke, sleepCount_cons_sleep, h2,
          Nat.add_sub_cancel]
        exact Nat.succ_pred_eq_of_pos (Nat.pos_of_ne_zero hr)
      · rw [h3]
        have harith : attempt + 1 + r - 1 = attempt + (r + 1) - 1 := by omega
        rw [harith]

/-- Helper: when the invocations at loop indices below `k` fail and the
one at index `k` succeeds with `v`, a run of the retry loop starting at
`attempt ≤ k` with enough iterations left to reach `k` makes exactly
`k - attempt + 1` further invocations, sleeps `k - attempt` times, and
returns `v`. -/
theorem retryGo_succeeds {α : Type} (op : Nat → Except String α)
    (errs : Nat → String) (k : Nat) (v : α)
    (hfail : ∀ n : Nat, n < k → op n = .error (errs n))
    (hsucc : op k = .ok v) (delay : Nat) :
    ∀ remaining attempt : Nat, attempt ≤ k → k < attempt + remaining →
      invokeCount (retryGo op delay attempt remaining).1 = k - attempt + 1 ∧
      sleepCount (retryGo op delay attempt remaining).1 = k - attempt ∧
      (retryGo op delay attempt remaining).2 = .ok (some v) := by
  intro remaining
  induction remaining with
  | zero => intro attempt hle hlt; omega
  | succ r ih =>
    intro attempt hle hlt
    by_cases hattempt : attempt = k
    · subst hattempt
      simp [retryGo, hsucc, invokeCount, sleepCount, List.filter]
    · have hak : attempt < k := lt_of_le_of_ne hle hattempt
      have hr : r ≠ 0 := by omega
      obtain ⟨h1, h2, h3⟩ := ih (attempt + 1) (by omega) (by omega)
      have key : retryGo op delay attempt (r + 1) =
          (REvent.invoke attempt :: REvent.sleep delay ::
            (retryGo op delay (attempt + 1) r).1,
           (retryGo op delay (attempt + 1) r).2) := by
        simp [retryGo, hfail attempt hak, hr]
      rw [key]
      refine ⟨?_, ?_, h3⟩
      · simp only [invokeCount_cons_invoke, invokeCount_cons_sleep, h1]
        omega
      · simp only [sleepCount_cons_invoke, sleepCount_cons_sleep, h2]
        omega

/-- Unfolding equation for `retry_on_failure`. -/
theorem retry_on_failure_def {α : Type} (op : Nat → Except String α)
    (retries delay : Nat) :
    retry_on_failure op retries delay = retryGo op delay 0 retries := rfl

/-- C2: for the retry policy with `retries = N > 0`: an operation that
fails on every invocation is invoked exactly N times and the exception of
the Nth invocation (loop index `N - 1`) is the one propagated; an
operation that fails on its first `k < N` invocations and succeeds on the
next is invoked exactly `k + 1` times and its success value is returned
(so no attempt follows the first success). -/
theorem retry_on_failure_attempt_counts {α : Type} (op : Nat → Except String α)
    (errs : Nat → String) (delay N : Nat) :
    (0 < N → (∀ n : Nat, op n = .error (errs n)) →
      invokeCount (retry_on_failure op N delay).1 = N ∧
      (retry_on_failure op N delay).2 = .error (errs (N - 1))) ∧
    (∀ (k : Nat) (v : α), k < N → (∀ n : Nat, n < k → op n = .error (errs n)) →
      op k = .ok v →
      invokeCount (retry_on_failure op N delay).1 = k + 1 ∧
      (retry_on_failure op N delay).2 = .ok (some v)) := by
  constructor
  · intro hN hfail
    obtain ⟨h1, _, h3⟩ := retryGo_allfail op errs hfail delay N 0 (by omega)
    rw [retry_on_failure_def]
    refine ⟨h1, ?_⟩
    rw [h3]
    have harith : 0 + N - 1 = N - 1 := by omega
    rw [harith]
  · intro k v hk hfail hsucc
    obtain ⟨h1, _, h3⟩ := retryGo_succeeds op errs k v hfail hsucc delay N 0
      (by omega) (by omega)
    rw [retry_on_failure_def]
    have harith : k - 0 + 1 = k + 1 := by omega
    rw [harith] at h1
    exact ⟨h1, h3⟩

theorem retry_on_failure_attempt_counts_witness :
    invokeCount (retry_on_failure
      (fun n => (Except.error (toString n) : Except String Nat)) 3 0).1 = 3 ∧
    (retry_on_failure
      (fun n => (Except.error (toString n) : Except String Nat)) 3 0).2 =
        .error "2" ∧
    invokeCount (retry_on_failure
      (fun n => if n < 2 then (Except.error (toString n) : Except String Nat)
                else .ok 99) 3 0).1 = 3 ∧
    (retry_on_failure
      (fun n => if n < 2 then (Except.error (toString n) : Except String Nat)
                else .ok 99) 3 0).2 = .ok (some 99) := by
  have hall := (retry_on_failure_attempt_counts
    (fun n => (Except.error (toString n) : Except String Nat)) toString 0 3).1
    (by omega) (fun n => rfl)
  have hsome := (retry_on_failure_attempt_counts
    (fun n => if n < 2 then (Except.error (toString n) : Except String Nat)
              else .ok 99) toString 0 3).2 2 99 (by omega)
    (fun n hn => by simp [hn]) (by simp)
  exact ⟨hall.1, hall.2, by simpa using hsome.1, hsome.2⟩

/-- C7: within one retry call the fixed delay is waited exactly after
each failing attempt other than the last: with `retries = N > 0`, an
always-failing operation produces exactly `N - 1` sleeps, and an
operation failing on its first `k < N` invocations then succeeding
produces exactly `k` sleeps — so no wait follows the final failing
attempt or a success. -/
theorem retry_on_failure_sleep_counts {α : Type} (op : Nat → Except String α)
    (errs : Nat → String) (delay N : Nat) :
    (0 < N → (∀ n : Nat, op n = .error (errs n)) →
      sleepCount (retry_on_failure op N delay).1 = N - 1) ∧
    (∀ (k : Nat) (v : α), k < N → (∀ n : Nat, n < k → op n = .error (errs n)) →
      op k = .ok v →
      sleepCount (retry_on_failure op N delay).1 = k) := by
  constructor
  · intro hN hfail
    exact (retryGo_allfail op errs hfail delay N 0 (by omega)).2.1
  · intro k v hk hfail hsucc
    have h := (retryGo_succeeds op errs k v hfail hsucc delay N 0
      (by omega) (by omega)).2.1
    rw [retry_on_failure_def]
    simpa using h

theorem retry_on_failure_sleep_counts_witness :
    sleepCount (retry_on_failure
      (fun n => (Except.error (toString n) : Except String Nat)) 3 5).1 = 2 ∧
    sleepCount (retry_on_failure
      (fun n => if n < 2 then (Except.error (toString n) : Except String Nat)
                else .ok 99) 3 5).1 = 2 :=
  ⟨(retry_on_failure_sleep_counts
      (fun n => (Except.error (toString n) : Except String Nat)) toString 5 3).1
      (by omega) (fun n => rfl),
   (retry_on_failure_sleep_counts
      (fun n => if n < 2 then (Except.error (toString n) : Except String Nat)
                else .ok 99) toString 5 3).2 2 99 (by omega)
      (fun n hn => by simp [hn]) (by simp)⟩

/-- Helper: whenever the gather scheduler returns, it returns the pair of
the two tasks' results in argument order, for every schedule and every
pair of pending step counts. -/
theorem gather_eq_some {α β : Type} (a : α) (b : β) :
    ∀ (sched : List Bool) (n1 n2 : Nat) (p : α × β),
      gather a b sched n1 n2 = some p → p = (a, b) := by
  intro sched
  induction sched with
  | nil =>
    intro n1 n2 p h
    match n1, n2 with
    | 0, 0 => simp [gather] at h; exact h.symm
    | 0, _ + 1 => simp [gather] at h
    | _ + 1, _ => simp [gather] at h
  | cons pick rest ih =>
    intro n1 n2 p h
    match pick, n1, n2 with
    | _, 0, 0 => simp [gather] at h; exact h.symm
    | true, 0, n2 + 1 => exact ih 0 n2 p h
    | true, n1 + 1, 0 => exact ih n1 0 p h
    | true, n1 + 1, n2 + 1 => exact ih n1 (n2 + 1) p h
    | false, 0, n2 + 1 => exact ih 0 n2 p h
    | false, n1 + 1, n2 + 1 => exact ih (n1 + 1) n2 p h
    | false, n1 + 1, 0 => exact ih n1 0 p h

/-- Helper: a long enough schedule completes the gather: with `n1 + n2`
resumptions the scheduler drains both tasks and returns their results. -/
theorem gather_completes {α β : Type} (a : α) (b : β) :
    ∀ n1 n2 : Nat, gather a b (List.replicate (n1 + n2) true) n1 n2 = some (a, b) := by
  intro n1
  induction n1 with
  | zero =>
    intro n2
    induction n2 with
    | zero => simp [gather]
    | succ m ihm =>
      have hrep : (0 : Nat) + (m + 1) = (0 + m) + 1 := by omega
      rw [hrep, List.replicate_succ]
      exact ihm
  | succ m ihm =>
    intro n2
    have hrep : (m + 1) + n2 = (m + n2) + 1 := by omega
    rw [hrep, List.replicate_succ]
    exact ihm n2

/-- C8: `fetch_concurrently` returns only after both reads completed
(every return is `some`, produced only once both tasks have no pending
steps), and the returned pair is in fixed argument order — the full-table
fetch first, the older-users fetch second, each equal to the result of
running that query alone — for every schedule, i.e. independent of which
task physically finishes first; moreover for any pending-step counts some
schedule does complete, yielding exactly that pair. -/
theorem fetch_concurrently_fixed_order (db : List UserRow) :
    (∀ (sched : List Bool) (n1 n2 : Nat) (p : List UserRow × List UserRow),
      fetch_concurrently db sched n1 n2 = some p →
      p = (async_fetch_users db, async_fetch_older_users db)) ∧
    (∀ n1 n2 : Nat,
      fetch_concurrently db (List.replicate (n1 + n2) true) n1 n2 =
        some (async_fetch_users db, async_fetch_older_users db)) := by
  constructor
  · intro sched n1 n2 p h
    exact gather_eq_some _ _ sched n1 n2 p h
  · intro n1 n2
    exact gather_completes _ _ n1 n2

theorem fetch_concurrently_fixed_order_witness :
    (([⟨1, "alice", 30⟩, ⟨2, "bob", 45⟩] : List UserRow),
      ([⟨2, "bob", 45⟩] : List UserRow)) =
    (async_fetch_users [⟨1, "alice", 30⟩, ⟨2, "bob", 45⟩],
     async_fetch_older_users [⟨1, "alice", 30⟩, ⟨2, "bob", 45⟩]) :=
  (fetch_concurrently_fixed_order
    [⟨1, "alice", 30⟩, ⟨2, "bob", 45⟩]).1
    [false, true, false, true] 2 2
    ([⟨1, "alice", 30⟩, ⟨2, "bob", 45⟩], [⟨2, "bob", 45⟩]) rfl

/-- C3: when executing the query succeeds, two `cache_query` calls with
the same statement text invoke the underlying execute at most once in
total and the second call returns the same result as the first; and when
the first call already hits the cache, the stored result is returned with
zero executions and the cache (hence the connection) untouched. -/
theorem cache_query_idempotent (execute : String → List Int → Except String ResultSet)
    (c0 : Cache) (q : String) (p : List Int) (r : ResultSet)
    (hexec : execute q p = .ok r) :
    (cache_query execute c0 q p).2.2 +
      (cache_query execute (cache_query execute c0 q p).2.1 q p).2.2 ≤ 1 ∧
    (cache_query execute (cache_query execute c0 q p).2.1 q p).1 =
      (cache_query execute c0 q p).1 ∧
    (∀ s : ResultSet, cacheLookup q c0 = some s →
      cache_query execute c0 q p = (.ok s, c0, 0)) := by
  cases hl : cacheLookup q c0 with
  | some s => simp [cache_query, hl]
  | none =>
    refine ⟨?_, ?_, ?_⟩
    · simp [cache_query, hl, hexec, cacheLookup]
    · simp [cache_query, hl, hexec, cacheLookup]
    · intro s hs; exact Option.noConfusion hs

theorem cache_query_idempotent_witness :
    (cache_query (fun _ _ => .ok [[1, 0]]) [] "SELECT * FROM users" []).2.2 +
      (cache_query (fun _ _ => .ok [[1, 0]])
        (cache_query (fun _ _ => .ok [[1, 0]]) [] "SELECT * FROM users" []).2.1
        "SELECT * FROM users" []).2.2 ≤ 1 ∧
    (cache_query (fun _ _ => .ok [[1, 0]])
        (cache_query (fun _ _ => .ok [[1, 0]]) [] "SELECT * FROM users" []).2.1
        "SELECT * FROM users" []).1 =
      (cache_query (fun _ _ => .ok [[1, 0]]) [] "SELECT * FROM users" []).1 :=
  ⟨(cache_query_idempotent (fun _ _ => .ok [[1, 0]]) [] "SELECT * FROM users"
      [] [[1, 0]] rfl).1,
   (cache_query_idempotent (fun _ _ => .ok [[1, 0]]) [] "SELECT * FROM users"
      [] [[1, 0]] rfl).2.1⟩

/-- C5: the cache key is the statement text alone.  After a first call
with parameters `p1` populates the cache, a second call with the same
statement text but different parameters `p2` returns the first call's
cached result with zero executions of the underlying function — the bind
parameters play no role in lookup or population (the second call's result
is `r1` no matter what `execute q p2` would return). -/
theorem cache_key_ignores_params (execute : String → List Int → Except String ResultSet)
    (c0 : Cache) (q : String) (p1 p2 : List Int) (r1 : ResultSet)
    (hmiss : cacheLookup q c0 = none) (hexec : execute q p1 = .ok r1)
    (_hne : p1 ≠ p2) :
    cache_query execute (cache_query execute c0 q p1).2.1 q p2 =
      (.ok r1, (cache_query execute c0 q p1).2.1, 0) := by
  simp [cache_query, hmiss, hexec, cacheLookup]

theorem cache_key_ignores_params_witness :
    cache_query
      (fun _ ps => .ok [ps]) (cache_query (fun _ ps => .ok [ps]) []
        "SELECT * FROM users WHERE age > ?" [40]).2.1
      "SELECT * FROM users WHERE age > ?" [60] =
    (.ok [[40]], (cache_query (fun _ ps => .ok [ps]) []
        "SELECT * FROM users WHERE age > ?" [40]).2.1, 0) :=
  cache_key_ignores_params (fun _ ps => .ok [ps]) []
    "SELECT * FROM users WHERE age > ?" [40] [60] [[40]] rfl rfl (by decide)

/-- C9: on a cache miss whose underlying execution raises, `cache_query`
propagates the error and leaves the cache unchanged — no entry is stored
— so a subsequent call with the same query misses again and re-executes
(one more underlying invocation) instead of returning a cached failure. -/
theorem cache_query_error_leaves_cache
    (execute : String → List Int → Except String ResultSet)
    (c0 : Cache) (q : String) (p : List Int) (e : String)
    (hmiss : cacheLookup q c0 = none) (herr : execute q p = .error e) :
    cache_query execute c0 q p = (.error e, c0, 1) ∧
    (cache_query execute (cache_query execute c0 q p).2.1 q p).2.2 = 1 := by
  constructor
  · simp [cache_query, hmiss, herr]
  · simp [cache_query, hmiss, herr]

theorem cache_query_error_leaves_cache_witness :
    cache_query (fun _ _ => .error "no such table: users") []
      "SELECT * FROM users" [] =
    (.error "no such table: users", [], 1) :=
  (cache_query_error_leaves_cache (fun _ _ => .error "no such table: users")
    [] "SELECT * FROM users" [] "no such table: users" rfl rfl).1

end AlxMiddleware
